import Mathlib

/-!
Shallow embedding of `src/tools/updateActivity.ts` from the strava-mcp
repository: the zod input schema `UpdateActivityInputSchema`, the helper
`formatActivityDetails`, and the tool handler `updateActivityTool.execute`.

JavaScript numbers are modelled as `Rat` (exact rationals); machine floats
never overflow in the ranges this tool touches and no claim depends on
float rounding artifacts.  JavaScript `undefined` for an optional field is
modelled as `Option.none`; the tri-state `gearId` (absent / null / string)
is `Option (Option String)`.  A JS object used as a sparse payload is an
association list `List (String × PValue)` in key-insertion order.
-/

/-- JSON-ish value as accepted by the zod schema: models the dynamic value
a caller may put in an input field before validation. -/
inductive JValue where
  | jnull : JValue
  | jbool : Bool → JValue
  | jnum : Rat → JValue
  | jstr : String → JValue
deriving DecidableEq, Repr

/-- Raw (pre-validation) input object for the update-activity tool.  Each
field holds `none` when the key is absent from the caller's object.  The
Lean field `isPrivate` embeds the JS field `private` (a Lean keyword). -/
structure RawInput where
  activityId : Option JValue
  name : Option JValue
  type : Option JValue
  sportType : Option JValue
  description : Option JValue
  isPrivate : Option JValue
  commute : Option JValue
  gearId : Option JValue
deriving DecidableEq, Repr

/-- Validated input, `z.infer<typeof UpdateActivityInputSchema>`.  The Lean
field `isPrivate` embeds the JS field `private`; `gearId = some none`
embeds an explicit JSON `null` (remove gear association). -/
structure UpdateActivityInput where
  activityId : Int
  name : Option String
  type : Option String
  sportType : Option String
  description : Option String
  isPrivate : Option Bool
  commute : Option Bool
  gearId : Option (Option String)
deriving DecidableEq, Repr

/-- `z.number().int().positive()`: the value must be present, a number,
an integer, and strictly positive. -/
def parseId : Option JValue → Option Int
  | some (JValue.jnum q) => if q.den = 1 ∧ 0 < q then some q.num else none
  | _ => none

/-- `z.string().optional()`: absent is fine, otherwise must be a string. -/
def parseOptStr : Option JValue → Option (Option String)
  | none => some none
  | some (JValue.jstr s) => some (some s)
  | _ => none

/-- `z.boolean().optional()`: absent is fine, otherwise must be a boolean. -/
def parseOptBool : Option JValue → Option (Option Bool)
  | none => some none
  | some (JValue.jbool b) => some (some b)
  | _ => none

/-- `z.string().nullable().optional()`: absent, JSON `null`, or a string
are the three accepted states, kept distinct. -/
def parseGearId : Option JValue → Option (Option (Option String))
  | none => some none
  | some JValue.jnull => some (some none)
  | some (JValue.jstr s) => some (some (some s))
  | _ => none

/-- `UpdateActivityInputSchema.safeParse`: validates every field; any
failing field makes the whole parse fail (zod reports a structured error
rather than throwing). -/
def safeParse (r : RawInput) : Option UpdateActivityInput :=
  (parseId r.activityId).bind fun id =>
  (parseOptStr r.name).bind fun n =>
  (parseOptStr r.type).bind fun t =>
  (parseOptStr r.sportType).bind fun st =>
  (parseOptStr r.description).bind fun d =>
  (parseOptBool r.isPrivate).bind fun p =>
  (parseOptBool r.commute).bind fun c =>
  (parseGearId r.gearId).bind fun g =>
  some ⟨id, n, t, st, d, p, c, g⟩

/-- Value stored in the sparse update payload object. -/
inductive PValue where
  | pstr : String → PValue
  | pbool : Bool → PValue
  | pnull : PValue
deriving DecidableEq, Repr

/-- The payload entry contributed by one optional field: one key-value
pair when the field was supplied, nothing when it was `undefined`. -/
def optEntry (k : String) : Option PValue → List (String × PValue)
  | some v => [(k, v)]
  | none => []

/-- How a validated `gearId` value appears in the payload: explicit null
stays null, a string stays a string. -/
def gearVal : Option String → PValue
  | none => PValue.pnull
  | some s => PValue.pstr s

/-- The `updateParams` object built inside `updateActivityTool.execute`:
for each optional field, `if (field !== undefined) updateParams.key = field`,
with keys renamed to the external snake_case names, in source order. -/
def buildUpdateParams (i : UpdateActivityInput) : List (String × PValue) :=
  optEntry "name" (i.name.map PValue.pstr) ++
  optEntry "type" (i.type.map PValue.pstr) ++
  optEntry "sport_type" (i.sportType.map PValue.pstr) ++
  optEntry "description" (i.description.map PValue.pstr) ++
  optEntry "private" (i.isPrivate.map PValue.pbool) ++
  optEntry "commute" (i.commute.map PValue.pbool) ++
  optEntry "gear_id" (i.gearId.map gearVal)

/-- Key lookup in a JS-object-as-association-list (first binding wins;
`buildUpdateParams` never repeats a key). -/
def lookupKey (k : String) : List (String × PValue) → Option PValue
  | [] => none
  | (k2, v) :: rest => if k2 = k then some v else lookupKey k rest

/-- The `StravaDetailedActivity` record as consumed by
`formatActivityDetails`: only the fields that function reads.  Fields the
function guards with `!== undefined` or a truthiness test are `Option`s;
`isPrivate` embeds the JS field `private`. -/
structure StravaDetailedActivity where
  id : Int
  name : String
  type : String
  sport_type : String
  start_date_local : String
  distance : Option Rat
  total_elevation_gain : Option Rat
  description : Option String
  isPrivate : Option Bool
  commute : Option Bool
deriving DecidableEq, Repr

/-- JS `Math.round`: round half toward positive infinity,
`Math.round(x) = ⌊x + 1/2⌋`. -/
def jsRound (q : Rat) : Int :=
  Rat.floor (q + 1 / 2)

/-- JS `Number.prototype.toFixed(2)` on an exact rational: round to the
nearest hundredth (half up) and print with exactly two decimals. -/
def toFixed2 (q : Rat) : String :=
  let n : Int := Rat.floor (q * 100 + 1 / 2)
  let sign := if n < 0 then "-" else ""
  let m := n.natAbs
  sign ++ toString (m / 100) ++ "." ++ (if m % 100 < 10 then "0" else "") ++ toString (m % 100)

/-- `new Date(s).toLocaleString()`: locale- and timezone-dependent
rendering of the activity start timestamp.  No claim constrains its
output, so it is modelled as an abstract deterministic function of the
timestamp string (here, the string itself). -/
def jsDateToLocaleString (s : String) : String := s

/-- JS truthiness of an optional string: `undefined` and `""` are falsy. -/
def strTruthy : Option String → Bool
  | some s => !(s = "")
  | none => false

/-- JS truthiness of an optional boolean: only `true` is truthy. -/
def boolTruthy : Option Bool → Bool
  | some b => b
  | none => false

/-- `formatActivityDetails` from the source, line by line: the `distance`
and `elevation` strings are computed up front with truthiness fallbacks to
`"N/A"`, then lines are appended, three of them conditionally. -/
def formatActivityDetails (a : StravaDetailedActivity) : String :=
  let date := jsDateToLocaleString a.start_date_local
  let distance := match a.distance with
    | some d => if d = 0 then "N/A" else toFixed2 (d / 1000) ++ " km"
    | none => "N/A"
  let elevation := match a.total_elevation_gain with
    | some e => if e = 0 then "N/A" else toString (jsRound e) ++ " m"
    | none => "N/A"
  let details := "🏃 **" ++ a.name ++ "** (ID: " ++ toString a.id ++ ")\n"
  let details := details ++ ("   - Type: " ++ a.type ++ " (" ++ a.sport_type ++ ")\n")
  let details := details ++ ("   - Date: " ++ date ++ "\n")
  let details := if a.distance ≠ none then details ++ ("   - Distance: " ++ distance ++ "\n") else details
  let details := if a.total_elevation_gain ≠ none then details ++ ("   - Elevation Gain: " ++ elevation ++ "\n") else details
  let details := if strTruthy a.description then details ++ ("   - Description: " ++ a.description.getD "" ++ "\n") else details
  let details := details ++ ("   - Private: " ++ (if boolTruthy a.isPrivate then "Yes" else "No") ++ "\n")
  let details := details ++ ("   - Commute: " ++ (if boolTruthy a.commute then "Yes" else "No") ++ "\n")
  details

/-- Behaviour of the external collaborator `updateActivityInStrava` for
one invocation: resolve with an activity, reject with an `Error` carrying
a message, or reject with a non-`Error` value whose `String(error)`
rendering is the given string.  The handler treats the collaborator as a
black box, so its behaviour is a parameter of the embedding. -/
inductive UpdateOutcome where
  | ok : StravaDetailedActivity → UpdateOutcome
  | errMsg : String → UpdateOutcome
  | errNonError : String → UpdateOutcome
deriving DecidableEq, Repr

/-- One `{ type: "text", text: ... }` block of the tool result. -/
structure ContentBlock where
  type : String
  text : String
deriving DecidableEq, Repr

/-- The handler's return object.  `isError = none` embeds a JS object with
no `isError` key at all (reading it yields `undefined`). -/
structure ToolResult where
  content : List ContentBlock
  isError : Option Bool
deriving DecidableEq, Repr

/-- Text of the result's single content block (all paths produce exactly
one block). -/
def firstText (r : ToolResult) : String :=
  (r.content.headD ⟨"", ""⟩).text

/-- JS `!token` on `process.env.STRAVA_ACCESS_TOKEN`: the variable is
missing or holds the empty string (both falsy). -/
def missingToken : Option String → Bool
  | none => true
  | some s => s = ""

/-- Character-list test: `p` is an initial segment of `l`. -/
def listStartsWith : List Char → List Char → Bool
  | [], _ => true
  | _ :: _, [] => false
  | a :: p, b :: l => a = b && listStartsWith p l

/-- Character-list test: `p` occurs contiguously somewhere in `l`. -/
def listOccurs : List Char → List Char → Bool
  | p, [] => listStartsWith p []
  | p, b :: t => listStartsWith p (b :: t) || listOccurs p t

/-- JS `String.prototype.includes`. -/
def strIncludes (s pat : String) : Bool :=
  listOccurs pat.data s.data

/-- The `userFriendlyMessage` classification in the catch block: a
not-found indicator (`"Record Not Found"` or `"404"`) in the error message
selects the not-found sentence, anything else the generic sentence with
the raw message appended. -/
def userFriendlyMessage (activityId : Int) (errorMessage : String) : String :=
  if strIncludes errorMessage "Record Not Found" || strIncludes errorMessage "404" then
    "Activity with ID " ++ toString activityId ++ " not found or you don\x27t have permission to update it."
  else
    "An unexpected error occurred while updating activity ID " ++ toString activityId ++ ". Details: " ++ errorMessage

/-- `updateActivityTool.execute` on a validated input.  Returns the tool
result together with the payload passed to `updateActivityInStrava`
(`none` when the collaborator was never invoked).  `token` is the ambient
`process.env.STRAVA_ACCESS_TOKEN`; `api` is the collaborator's behaviour
for this invocation.  `console.error` logging is pure observability and
not modelled. -/
def execute (token : Option String) (api : UpdateOutcome) (i : UpdateActivityInput) :
    ToolResult × Option (List (String × PValue)) :=
  if missingToken token then
    ({ content := [⟨"text", "Configuration error: Missing Strava access token."⟩],
       isError := some true }, none)
  else
    let updateParams := buildUpdateParams i
    match api with
    | UpdateOutcome.ok a =>
        ({ content := [⟨"text",
             "✅ Successfully updated activity ID " ++ toString i.activityId ++ ".\n\n" ++
               formatActivityDetails a⟩],
           isError := none }, some updateParams)
    | UpdateOutcome.errMsg m =>
        ({ content := [⟨"text", "❌ " ++ userFriendlyMessage i.activityId m⟩],
           isError := some true }, some updateParams)
    | UpdateOutcome.errNonError s =>
        ({ content := [⟨"text", "❌ " ++ userFriendlyMessage i.activityId s⟩],
           isError := some true }, some updateParams)

/-! Claim-side decomposition of the formatter output: the unconditional
header (name/ID, type, date), the three conditional lines, and the
unconditional privacy/commute footer.  These are spec-shaped definitions,
to be proved equal to what the source-faithful `formatActivityDetails`
produces. -/

/-- The three lines every summary starts with: name/ID, type, date. -/
def headerOf (a : StravaDetailedActivity) : String :=
  "🏃 **" ++ a.name ++ "** (ID: " ++ toString a.id ++ ")\n" ++
    ("   - Type: " ++ a.type ++ " (" ++ a.sport_type ++ ")\n") ++
    ("   - Date: " ++ jsDateToLocaleString a.start_date_local ++ "\n")

/-- The distance line: absent field contributes nothing; a zero value
renders `N/A`; otherwise metres are divided by 1000 and shown with two
decimals and a ` km` suffix. -/
def distLineOf : Option Rat → String
  | none => ""
  | some d => "   - Distance: " ++ (if d = 0 then "N/A" else toFixed2 (d / 1000) ++ " km") ++ "\n"

/-- The elevation-gain line: absent field contributes nothing; a zero
value renders `N/A`; otherwise the value is rounded to whole metres. -/
def elevLineOf : Option Rat → String
  | none => ""
  | some e => "   - Elevation Gain: " ++ (if e = 0 then "N/A" else toString (jsRound e) ++ " m") ++ "\n"

/-- The description line: only a non-empty description contributes. -/
def descLineOf : Option String → String
  | none => ""
  | some s => if s = "" then "" else "   - Description: " ++ s ++ "\n"

/-- Yes/No rendering of an optional boolean flag (JS truthiness). -/
def yesNo (b : Option Bool) : String :=
  if boolTruthy b then "Yes" else "No"

/-- The two lines every summary ends with: privacy and commute flags. -/
def flagLinesOf (a : StravaDetailedActivity) : String :=
  "   - Private: " ++ yesNo a.isPrivate ++ "\n" ++
    ("   - Commute: " ++ yesNo a.commute ++ "\n")

theorem dist_step (base : String) (dist : Option Rat) :
    (if dist ≠ none then
        base ++ ("   - Distance: " ++ (match dist with
          | some d => if d = 0 then "N/A" else toFixed2 (d / 1000) ++ " km"
          | none => "N/A") ++ "\n")
      else base) = base ++ distLineOf dist := by
  rcases dist with _ | d
  · simp [distLineOf, String.append_empty]
  · rcases eq_or_ne d 0 with h | h <;> simp [distLineOf, h]

theorem elev_step (base : String) (elev : Option Rat) :
    (if elev ≠ none then
        base ++ ("   - Elevation Gain: " ++ (match elev with
          | some e => if e = 0 then "N/A" else toString (jsRound e) ++ " m"
          | none => "N/A") ++ "\n")
      else base) = base ++ elevLineOf elev := by
  rcases elev with _ | e
  · simp [elevLineOf, String.append_empty]
  · rcases eq_or_ne e 0 with h | h <;> simp [elevLineOf, h]

theorem desc_step (base : String) (desc : Option String) :
    (if strTruthy desc then base ++ ("   - Description: " ++ desc.getD "" ++ "\n")
      else base) = base ++ descLineOf desc := by
  rcases desc with _ | s
  · simp [strTruthy, descLineOf, String.append_empty]
  · rcases eq_or_ne s "" with h | h <;>
      simp [strTruthy, descLineOf, h, String.append_empty]

/-- The source formatter decomposes into header, three conditional lines,
and footer. -/
theorem formatActivityDetails_eq (a : StravaDetailedActivity) :
    formatActivityDetails a =
      headerOf a ++
        (distLineOf a.distance ++ elevLineOf a.total_elevation_gain ++
          descLineOf a.description) ++ flagLinesOf a := by
  simp only [formatActivityDetails]
  rw [dist_step, elev_step, desc_step]
  simp [headerOf, flagLinesOf, yesNo, String.append_assoc]

/-! Helper lemmas about `lookupKey` over `optEntry` segments. -/

theorem lookupKey_skip {k k2 : String} (h : ¬ k2 = k) {v : Option PValue}
    {rest : List (String × PValue)} :
    lookupKey k (optEntry k2 v ++ rest) = lookupKey k rest := by
  cases v <;> simp [optEntry, lookupKey, h]

theorem lookupKey_last {k k2 : String} (h : ¬ k2 = k) {v : Option PValue} :
    lookupKey k (optEntry k2 v) = none := by
  cases v <;> simp [optEntry, lookupKey, h]

theorem lookupKey_here {k : String} (v : Option PValue) {rest : List (String × PValue)}
    (hrest : lookupKey k rest = none) :
    lookupKey k (optEntry k v ++ rest) = v := by
  cases v <;> simp [optEntry, lookupKey, hrest]

theorem lookupKey_self {k : String} (v : Option PValue) :
    lookupKey k (optEntry k v) = v := by
  cases v <;> simp [optEntry, lookupKey]

theorem lookup_name (i : UpdateActivityInput) :
    lookupKey "name" (buildUpdateParams i) = i.name.map PValue.pstr := by
  simp only [buildUpdateParams, List.append_assoc]
  rw [lookupKey_here _ (by
    rw [lookupKey_skip (by decide), lookupKey_skip (by decide), lookupKey_skip (by decide),
      lookupKey_skip (by decide), lookupKey_skip (by decide), lookupKey_last (by decide)])]

theorem lookup_type (i : UpdateActivityInput) :
    lookupKey "type" (buildUpdateParams i) = i.type.map PValue.pstr := by
  simp only [buildUpdateParams, List.append_assoc]
  rw [lookupKey_skip (by decide), lookupKey_here _ (by
    rw [lookupKey_skip (by decide), lookupKey_skip (by decide), lookupKey_skip (by decide),
      lookupKey_skip (by decide), lookupKey_last (by decide)])]

theorem lookup_sport_type (i : UpdateActivityInput) :
    lookupKey "sport_type" (buildUpdateParams i) = i.sportType.map PValue.pstr := by
  simp only [buildUpdateParams, List.append_assoc]
  rw [lookupKey_skip (by decide), lookupKey_skip (by decide), lookupKey_here _ (by
    rw [lookupKey_skip (by decide), lookupKey_skip (by decide), lookupKey_skip (by decide),
      lookupKey_last (by decide)])]

theorem lookup_description (i : UpdateActivityInput) :
    lookupKey "description" (buildUpdateParams i) = i.description.map PValue.pstr := by
  simp only [buildUpdateParams, List.append_assoc]
  rw [lookupKey_skip (by decide), lookupKey_skip (by decide), lookupKey_skip (by decide),
    lookupKey_here _ (by
      rw [lookupKey_skip (by decide), lookupKey_skip (by decide), lookupKey_last (by decide)])]

theorem lookup_private_key (i : UpdateActivityInput) :
    lookupKey "private" (buildUpdateParams i) = i.isPrivate.map PValue.pbool := by
  simp only [buildUpdateParams, List.append_assoc]
  rw [lookupKey_skip (by decide), lookupKey_skip (by decide), lookupKey_skip (by decide),
    lookupKey_skip (by decide), lookupKey_here _ (by
      rw [lookupKey_skip (by decide), lookupKey_last (by decide)])]

theorem lookup_commute (i : UpdateActivityInput) :
    lookupKey "commute" (buildUpdateParams i) = i.commute.map PValue.pbool := by
  simp only [buildUpdateParams, List.append_assoc]
  rw [lookupKey_skip (by decide), lookupKey_skip (by decide), lookupKey_skip (by decide),
    lookupKey_skip (by decide), lookupKey_skip (by decide),
    lookupKey_here _ (lookupKey_last (by decide))]

theorem lookup_gear_id (i : UpdateActivityInput) :
    lookupKey "gear_id" (buildUpdateParams i) = i.gearId.map gearVal := by
  simp only [buildUpdateParams, List.append_assoc]
  rw [lookupKey_skip (by decide), lookupKey_skip (by decide), lookupKey_skip (by decide),
    lookupKey_skip (by decide), lookupKey_skip (by decide), lookupKey_skip (by decide),
    lookupKey_self]

theorem keys_buildUpdateParams (i : UpdateActivityInput) (k : String) (v : PValue)
    (h : (k, v) ∈ buildUpdateParams i) :
    k ∈ (["name", "type", "sport_type", "description", "private", "commute",
      "gear_id"] : List String) := by
  have hk : ∀ (k2 : String) (ov : Option PValue), (k, v) ∈ optEntry k2 ov → k = k2 := by
    intro k2 ov hm
    cases ov with
    | none => simp [optEntry] at hm
    | some x =>
        simp [optEntry] at hm
        exact hm.1
  simp only [buildUpdateParams, List.mem_append] at h
  rcases h with ((((((h | h) | h) | h) | h) | h) | h) <;>
    (rw [hk _ _ h]; decide)

/-! Helper lemmas about the substring test `strIncludes`. -/

theorem listStartsWith_append (p l : List Char) : listStartsWith p (p ++ l) = true := by
  induction p with
  | nil => rfl
  | cons a t ih => simp [listStartsWith, ih]

theorem listStartsWith_refl (p : List Char) : listStartsWith p p = true := by
  simpa using listStartsWith_append p []

theorem listOccurs_of_startsWith {p l : List Char} (h : listStartsWith p l = true) :
    listOccurs p l = true := by
  cases l with
  | nil => simpa [listOccurs] using h
  | cons b t => simp [listOccurs, h]

theorem listOccurs_append_r {p l2 : List Char} (l1 : List Char)
    (h : listOccurs p l2 = true) : listOccurs p (l1 ++ l2) = true := by
  induction l1 with
  | nil => simpa
  | cons a t ih => simp [listOccurs, ih]

theorem strIncludes_append_r (s1 : String) {s2 pat : String}
    (h : strIncludes s2 pat = true) : strIncludes (s1 ++ s2) pat = true := by
  unfold strIncludes at h ⊢
  rw [String.data_append]
  exact listOccurs_append_r _ h

theorem strIncludes_mid (s1 pat s2 : String) : strIncludes (s1 ++ (pat ++ s2)) pat = true := by
  unfold strIncludes
  rw [String.data_append, String.data_append]
  exact listOccurs_append_r _ (listOccurs_of_startsWith (listStartsWith_append _ _))

theorem strIncludes_suffix (s1 pat : String) : strIncludes (s1 ++ pat) pat = true := by
  unfold strIncludes
  rw [String.data_append]
  exact listOccurs_append_r _ (listOccurs_of_startsWith (listStartsWith_refl _))

/-- C1: for every validated input with identifier > 0 handled with a
present credential, the payload passed to the update executor has a key
for an optional field iff that field was supplied in the input (with the
supplied value, explicit null for gearId included), keys are renamed to
the external snake_case names, and no other keys appear. -/
theorem c1_payload_keys (token : Option String) (api : UpdateOutcome)
    (i : UpdateActivityInput) (ht : missingToken token = false)
    (hid : 0 < i.activityId) :
    (execute token api i).snd = some (buildUpdateParams i) ∧
    lookupKey "name" (buildUpdateParams i) = i.name.map PValue.pstr ∧
    lookupKey "type" (buildUpdateParams i) = i.type.map PValue.pstr ∧
    lookupKey "sport_type" (buildUpdateParams i) = i.sportType.map PValue.pstr ∧
    lookupKey "description" (buildUpdateParams i) = i.description.map PValue.pstr ∧
    lookupKey "private" (buildUpdateParams i) = i.isPrivate.map PValue.pbool ∧
    lookupKey "commute" (buildUpdateParams i) = i.commute.map PValue.pbool ∧
    lookupKey "gear_id" (buildUpdateParams i) = i.gearId.map gearVal ∧
    ∀ k v, (k, v) ∈ buildUpdateParams i →
      k ∈ (["name", "type", "sport_type", "description", "private", "commute",
        "gear_id"] : List String) := by
  refine ⟨?_, lookup_name i, lookup_type i, lookup_sport_type i, lookup_description i,
    lookup_private_key i, lookup_commute i, lookup_gear_id i, keys_buildUpdateParams i⟩
  cases api <;> simp [execute, ht]

/-- Witness for C1 at a concrete input: only name, private and gearId
supplied, so the payload holds exactly those three renamed keys. -/
theorem c1_payload_keys_witness :
    (execute (some "t") (UpdateOutcome.errMsg "x")
      ⟨1, some "nm", none, none, none, some false, none, some none⟩).snd =
      some [("name", PValue.pstr "nm"), ("private", PValue.pbool false),
        ("gear_id", PValue.pnull)] :=
  (c1_payload_keys (some "t") (UpdateOutcome.errMsg "x")
    ⟨1, some "nm", none, none, none, some false, none, some none⟩
    (by decide) (by decide)).1.trans (by decide)

/-- C2: with a valid identifier, gearId explicitly null and no other
optional field, the payload passed to the executor is exactly the one-key
object `{gear_id: null}`. -/
theorem c2_gear_null_payload (token : Option String) (api : UpdateOutcome) (id : Int)
    (ht : missingToken token = false) (hid : 0 < id) :
    (execute token api
      ⟨id, none, none, none, none, none, none, some none⟩).snd =
      some [("gear_id", PValue.pnull)] := by
  cases api <;> simp [execute, ht, buildUpdateParams, optEntry, gearVal]

/-- Witness for C2 at identifier 7. -/
theorem c2_gear_null_payload_witness :
    (execute (some "t") (UpdateOutcome.errMsg "boom")
      ⟨7, none, none, none, none, none, none, some none⟩).snd =
      some [("gear_id", PValue.pnull)] :=
  c2_gear_null_payload (some "t") (UpdateOutcome.errMsg "boom") 7 (by decide) (by decide)

/-- C3: when the ambient credential is absent or empty, the handler
returns an error-flagged result whose text contains a configuration-error
phrase, and the external update function is never invoked. -/
theorem c3_missing_token (token : Option String) (api : UpdateOutcome)
    (i : UpdateActivityInput) (h : missingToken token = true) :
    (execute token api i).fst.isError = some true ∧
    strIncludes (firstText (execute token api i).fst) "Configuration error" = true ∧
    (execute token api i).snd = none := by
  refine ⟨by simp [execute, h], ?_, by simp [execute, h]⟩
  have hft : firstText (execute token api i).fst =
      "Configuration error: Missing Strava access token." := by
    simp [execute, h, firstText]
  rw [hft]
  decide

/-- Witness for C3 with the credential entirely absent. -/
theorem c3_missing_token_witness :
    (execute none (UpdateOutcome.errMsg "x")
      ⟨1, none, none, none, none, none, none, none⟩).fst.isError = some true ∧
    strIncludes (firstText (execute none (UpdateOutcome.errMsg "x")
      ⟨1, none, none, none, none, none, none, none⟩).fst) "Configuration error" = true ∧
    (execute none (UpdateOutcome.errMsg "x")
      ⟨1, none, none, none, none, none, none, none⟩).snd = none :=
  c3_missing_token none (UpdateOutcome.errMsg "x")
    ⟨1, none, none, none, none, none, none, none⟩ rfl

/-- C7: for every credential state and every collaborator behaviour
(resolve, reject with an Error, reject with a non-Error value), the
handler returns a structured result with exactly one text block; the
embedding is a total function, so no exception escapes the boundary. -/
theorem c7_no_escape (token : Option String) (api : UpdateOutcome)
    (i : UpdateActivityInput) :
    (execute token api i).fst.content.map ContentBlock.type = ["text"] ∧
    (execute token api i).fst.content.length = 1 := by
  rcases token with _ | s
  · cases api <;> simp [execute, missingToken]
  · by_cases hs : s = "" <;> cases api <;> simp [execute, missingToken, hs]

/-- C9: the result formatter is deterministic — the same summary always
yields character-for-character identical text. -/
theorem c9_deterministic (a : StravaDetailedActivity) :
    formatActivityDetails a = formatActivityDetails a ∧
    (formatActivityDetails a).data = (formatActivityDetails a).data :=
  ⟨rfl, rfl⟩

theorem userFriendly_props (id : Int) (m : String) :
    ((strIncludes m "Record Not Found" || strIncludes m "404") = true →
      strIncludes ("❌ " ++ userFriendlyMessage id m) "not found" = true ∧
      strIncludes ("❌ " ++ userFriendlyMessage id m) (toString id) = true) ∧
    ((strIncludes m "Record Not Found" || strIncludes m "404") = false →
      strIncludes ("❌ " ++ userFriendlyMessage id m) (toString id) = true ∧
      strIncludes ("❌ " ++ userFriendlyMessage id m) m = true) := by
  constructor
  · intro hc
    unfold userFriendlyMessage
    rw [if_pos hc]
    constructor
    · apply strIncludes_append_r
      apply strIncludes_append_r
      decide
    · apply strIncludes_append_r
      rw [String.append_assoc]
      exact strIncludes_mid _ _ _
  · intro hc
    unfold userFriendlyMessage
    rw [if_neg (by simp [hc])]
    constructor
    · apply strIncludes_append_r
      rw [String.append_assoc, String.append_assoc]
      exact strIncludes_mid _ _ _
    · apply strIncludes_append_r
      exact strIncludes_suffix _ _

/-- C4: with a present credential, a rejecting executor yields an
error-flagged result; a not-found indicator in the error message selects
the not-found sentence (contains "not found" and the identifier),
anything else the generic sentence (contains the identifier and the raw
error message). -/
theorem c4_error_classification (token : Option String) (i : UpdateActivityInput)
    (m : String) (api : UpdateOutcome) (ht : missingToken token = false)
    (hm : api = UpdateOutcome.errMsg m ∨ api = UpdateOutcome.errNonError m) :
    (execute token api i).fst.isError = some true ∧
    ((strIncludes m "Record Not Found" || strIncludes m "404") = true →
      strIncludes (firstText (execute token api i).fst) "not found" = true ∧
      strIncludes (firstText (execute token api i).fst) (toString i.activityId) = true) ∧
    ((strIncludes m "Record Not Found" || strIncludes m "404") = false →
      strIncludes (firstText (execute token api i).fst) (toString i.activityId) = true ∧
      strIncludes (firstText (execute token api i).fst) m = true) := by
  have hprops := userFriendly_props i.activityId m
  rcases hm with rfl | rfl
  · have hft : firstText (execute token (UpdateOutcome.errMsg m) i).fst =
        "❌ " ++ userFriendlyMessage i.activityId m := by
      simp [execute, ht, firstText]
    refine ⟨by simp [execute, ht], ?_, ?_⟩ <;> rw [hft]
    · exact hprops.1
    · exact hprops.2
  · have hft : firstText (execute token (UpdateOutcome.errNonError m) i).fst =
        "❌ " ++ userFriendlyMessage i.activityId m := by
      simp [execute, ht, firstText]
    refine ⟨by simp [execute, ht], ?_, ?_⟩ <;> rw [hft]
    · exact hprops.1
    · exact hprops.2

/-- Witness for C4: executor rejects with "Record Not Found" at
identifier 12345; the result is error-flagged and its text contains
"not found". -/
theorem c4_error_classification_witness :
    (execute (some "t") (UpdateOutcome.errMsg "Record Not Found")
      ⟨12345, some "Updated Name", none, none, none, none, none, none⟩).fst.isError =
      some true ∧
    strIncludes (firstText (execute (some "t") (UpdateOutcome.errMsg "Record Not Found")
      ⟨12345, some "Updated Name", none, none, none, none, none, none⟩).fst)
      "not found" = true :=
  have h := c4_error_classification (some "t")
    ⟨12345, some "Updated Name", none, none, none, none, none, none⟩
    "Record Not Found" (UpdateOutcome.errMsg "Record Not Found") (by decide) (Or.inl rfl)
  ⟨h.1, (h.2.1 (by decide)).1⟩

/-- Counterexample for C5 as stated: on the success path the source
returns an object with no `isError` key at all, so the flag is absent
(`none` in the model), not present with value `false`. -/
theorem c5_counterexample :
    (execute (some "token")
      (UpdateOutcome.ok ⟨12345, "Updated Test Activity", "Run", "running",
        "2024-01-01T06:00:00Z", some 5000, some 100, some "desc", some false,
        some false⟩)
      ⟨12345, some "Updated Name", none, none, none, none, none, none⟩).fst.isError =
      none ∧
    ¬ ((execute (some "token")
      (UpdateOutcome.ok ⟨12345, "Updated Test Activity", "Run", "running",
        "2024-01-01T06:00:00Z", some 5000, some 100, some "desc", some false,
        some false⟩)
      ⟨12345, some "Updated Name", none, none, none, none, none, none⟩).fst.isError =
      some false) :=
  ⟨rfl, by decide⟩

/-- C5 (amended): every path returns one text block; the error flag is
set on every failure path and is absent (not present-false) on the
success path, where the text begins with the success glyph, the
identifier, and the formatted summary. -/
theorem c5_result_shape (token : Option String) (api : UpdateOutcome)
    (i : UpdateActivityInput) :
    (execute token api i).fst.content.length = 1 ∧
    (∀ b ∈ (execute token api i).fst.content, b.type = "text") ∧
    (missingToken token = true → (execute token api i).fst.isError = some true) ∧
    (∀ m, missingToken token = false →
      (api = UpdateOutcome.errMsg m ∨ api = UpdateOutcome.errNonError m) →
      (execute token api i).fst.isError = some true) ∧
    (∀ a, missingToken token = false → api = UpdateOutcome.ok a →
      (execute token api i).fst.isError = none ∧
      firstText (execute token api i).fst =
        "✅ Successfully updated activity ID " ++ toString i.activityId ++ ".\n\n" ++
          formatActivityDetails a) := by
  rcases token with _ | s
  · cases api <;> simp [execute, missingToken, firstText]
  · by_cases hs : s = "" <;> cases api <;>
      simp [execute, missingToken, hs, firstText, String.append_assoc]

/-- Witness for C5 (amended): a concrete successful run has one text
block, no error flag, and the success text. -/
theorem c5_result_shape_witness :
    (execute (some "token")
      (UpdateOutcome.ok ⟨12345, "Updated Test Activity", "Run", "running",
        "2024-01-01T06:00:00Z", some 5000, some 100, some "desc", some false,
        some false⟩)
      ⟨12345, some "Updated Name", none, none, none, none, none, none⟩).fst.isError =
      none ∧
    firstText (execute (some "token")
      (UpdateOutcome.ok ⟨12345, "Updated Test Activity", "Run", "running",
        "2024-01-01T06:00:00Z", some 5000, some 100, some "desc", some false,
        some false⟩)
      ⟨12345, some "Updated Name", none, none, none, none, none, none⟩).fst =
      "✅ Successfully updated activity ID " ++ toString (12345 : Int) ++ ".\n\n" ++
        formatActivityDetails ⟨12345, "Updated Test Activity", "Run", "running",
          "2024-01-01T06:00:00Z", some 5000, some 100, some "desc", some false,
          some false⟩ :=
  (c5_result_shape (some "token") _ _).2.2.2.2 _ (by decide) rfl

/-- C6: the formatter splits into the unconditional header/footer and
three conditional lines: the distance line appears only when the field is
present (two-decimal km when non-zero, `N/A` when zero), the
elevation-gain line only when present (whole metres when non-zero, `N/A`
when zero), the description line only when non-empty. -/
theorem c6_formatter_lines (a : StravaDetailedActivity) :
    formatActivityDetails a =
      headerOf a ++
        (distLineOf a.distance ++ elevLineOf a.total_elevation_gain ++
          descLineOf a.description) ++ flagLinesOf a ∧
    distLineOf none = "" ∧
    distLineOf (some 0) = "   - Distance: N/A\n" ∧
    (∀ d : Rat, d ≠ 0 →
      distLineOf (some d) = "   - Distance: " ++ toFixed2 (d / 1000) ++ " km\n") ∧
    elevLineOf none = "" ∧
    elevLineOf (some 0) = "   - Elevation Gain: N/A\n" ∧
    (∀ e : Rat, e ≠ 0 →
      elevLineOf (some e) = "   - Elevation Gain: " ++ toString (jsRound e) ++ " m\n") ∧
    descLineOf none = "" ∧
    descLineOf (some "") = "" ∧
    (∀ s : String, s ≠ "" →
      descLineOf (some s) = "   - Description: " ++ s ++ "\n") := by
  refine ⟨formatActivityDetails_eq a, rfl, by decide, ?_, rfl, by decide, ?_, rfl,
    by decide, ?_⟩
  · intro d hd
    simp [distLineOf, hd, String.append_assoc]
  · intro e he
    simp [elevLineOf, he, String.append_assoc]
  · intro s hs
    simp [descLineOf, hs, String.append_assoc]

/-- Witness for C6: a non-zero distance of 5000 m renders as a km value
with two decimals. -/
theorem c6_formatter_lines_witness :
    distLineOf (some (5000 : Rat)) =
      "   - Distance: " ++ toFixed2 ((5000 : Rat) / 1000) ++ " km\n" :=
  (c6_formatter_lines ⟨12345, "A", "Run", "running", "2024-01-01",
    some 5000, none, none, none, none⟩).2.2.2.1 5000 (by decide)

/-- C10 (implicit): the name/ID, type, and date lines and the Private and
Commute lines are emitted unconditionally; an absent or false flag
renders as `No`, only the truthy flag as `Yes`. -/
theorem c10_unconditional_lines (a : StravaDetailedActivity) :
    (∃ optionalLines : String,
      formatActivityDetails a =
        "🏃 **" ++ a.name ++ "** (ID: " ++ toString a.id ++ ")\n" ++
          ("   - Type: " ++ a.type ++ " (" ++ a.sport_type ++ ")\n") ++
          ("   - Date: " ++ jsDateToLocaleString a.start_date_local ++ "\n") ++
          optionalLines ++
          ("   - Private: " ++ yesNo a.isPrivate ++ "\n") ++
          ("   - Commute: " ++ yesNo a.commute ++ "\n")) ∧
    yesNo none = "No" ∧ yesNo (some false) = "No" ∧ yesNo (some true) = "Yes" := by
  refine ⟨⟨distLineOf a.distance ++ elevLineOf a.total_elevation_gain ++
    descLineOf a.description, ?_⟩, rfl, rfl, rfl⟩
  rw [formatActivityDetails_eq]
  simp [headerOf, flagLinesOf, String.append_assoc]

/-- Raw encoding of a well-typed optional string field. -/
def encStr : Option String → Option JValue
  | none => none
  | some s => some (JValue.jstr s)

/-- Raw encoding of a well-typed optional boolean field. -/
def encBool : Option Bool → Option JValue
  | none => none
  | some b => some (JValue.jbool b)

/-- Raw encoding of the tri-state gearId field: absent, explicit null, or
string. -/
def encGear : Option (Option String) → Option JValue
  | none => none
  | some none => some JValue.jnull
  | some (some s) => some (JValue.jstr s)

/-- A raw input whose fields all have the declared types. -/
def mkRaw (id : Int) (n t st d : Option String) (p c : Option Bool)
    (g : Option (Option String)) : RawInput :=
  ⟨some (JValue.jnum (id : Rat)), encStr n, encStr t, encStr st, encStr d,
    encBool p, encBool c, encGear g⟩

theorem parseOptStr_enc (n : Option String) : parseOptStr (encStr n) = some n := by
  cases n <;> rfl

theorem parseOptBool_enc (b : Option Bool) : parseOptBool (encBool b) = some b := by
  cases b <;> rfl

theorem parseGearId_enc (g : Option (Option String)) : parseGearId (encGear g) = some g := by
  rcases g with _ | (_ | s) <;> rfl

/-- C8: schema validation rejects every input whose identifier is not a
present, positive integer number (e.g. identifier = -12345), and accepts
every input with a positive integer identifier and optional fields of the
declared types, gearId keeping its three distinct states. -/
theorem c8_schema_validation :
    (∀ r : RawInput,
      (match r.activityId with
        | some (JValue.jnum q) => ¬ (q.den = 1 ∧ 0 < q)
        | _ => True) → safeParse r = none) ∧
    (∀ id : Int, 0 < id → ∀ (n t st d : Option String) (p c : Option Bool)
      (g : Option (Option String)),
      safeParse (mkRaw id n t st d p c g) = some ⟨id, n, t, st, d, p, c, g⟩) := by
  constructor
  · intro r h
    have hpid : parseId r.activityId = none := by
      rcases hr : r.activityId with _ | v
      · rfl
      · rw [hr] at h
        cases v with
        | jnum q => simp [parseId, h]
        | jnull => rfl
        | jbool b => rfl
        | jstr s => rfl
    simp [safeParse, hpid]
  · intro id hid n t st d p c g
    have hq : parseId (some (JValue.jnum (id : Rat))) = some id := by
      have h1 : ((id : Rat)).den = 1 := Rat.den_intCast id
      have h2 : (0 : Rat) < (id : Rat) := by exact_mod_cast hid
      simp [parseId, h1, h2, Rat.num_intCast]
    simp [safeParse, mkRaw, hq, parseOptStr_enc, parseOptBool_enc, parseGearId_enc]

/-- Witness for C8: identifier -12345 is rejected; a well-typed input
with identifier 12345 parses to the expected validated value. -/
theorem c8_schema_validation_witness :
    safeParse ⟨some (JValue.jnum (-12345 : Rat)), none, none, none, none, none,
      none, none⟩ = none ∧
    safeParse (mkRaw 12345 (some "Updated Name") none none
      (some "Updated description") (some true) (some false)
      (some (some "shoes-456"))) =
      some ⟨12345, some "Updated Name", none, none, some "Updated description",
        some true, some false, some (some "shoes-456")⟩ :=
  ⟨c8_schema_validation.1 _ (by decide),
   c8_schema_validation.2 12345 (by decide) _ _ _ _ _ _ _⟩
